import Mathlib

/-!
Verification of the `benchmark_v2` multi-layer evaluation pipeline.

Shallow embedding of the Python sources:
  * `benchmark_v2/evaluators/llm_judge.py`   (judge rotation, tiebreak arbitration)
  * `benchmark_v2/evaluators/structural.py`  (deterministic structural checks)
  * `benchmark_v2/evaluators/reference.py`   (ground-truth / anti-hallucination layer)
  * `benchmark_v2/analysis/statistics.py`    (mean, std, confidence intervals)
  * `benchmark_v2/__main__.py`               (orchestrator loop)

Modelling conventions:
  * Python floats are modelled by `ℚ` (all literals appearing in the code are
    decimal and are carried exactly).
  * Python ints are modelled by `ℤ`, list lengths by `ℕ` cast as needed.
  * External effects (LLM provider calls) and the Python `re` regex engine are
    modelled as oracle parameters, collected in the `Env` structure; every claim
    is proved for all oracles (or refuted at an explicit concrete oracle).
  * Python dicts with insertion order are modelled as association lists.
-/

namespace BenchmarkV2

/-! ## Python primitives -/

/-- Python `math.floor` on an exact rational: `⌊q⌋` computed as Euclidean
division of numerator by (positive) denominator. -/
def pyFloor (q : ℚ) : ℤ := Int.ediv q.num (q.den : ℤ)

/-- Python built-in `round` to an integer: round half to even (banker's
rounding), as used by `round(x)` and `int(round(x))` in the source. -/
def pythonRound (q : ℚ) : ℤ :=
  if q - pyFloor q < 1/2 then pyFloor q
  else if q - pyFloor q > 1/2 then pyFloor q + 1
  else if pyFloor q % 2 = 0 then pyFloor q else pyFloor q + 1

/-- Python `round(x, 4)`: round half to even at the fourth decimal place. -/
def roundTo4 (q : ℚ) : ℚ := (pythonRound (q * 10000) : ℚ) / 10000

/-- Python `int(x)` on a float: truncation toward zero. -/
def pyInt (q : ℚ) : ℤ := Int.tdiv q.num (q.den : ℤ)

/-- `needle` occurs as a contiguous sublist of `hay` (Python's `needle in hay`
on strings, on the character lists). -/
def listHasInfix (needle : List Char) : List Char → Bool
  | [] => needle.isEmpty
  | c :: t => needle.isPrefixOf (c :: t) || listHasInfix needle t

/-- Python `needle in hay` for strings. -/
def pyContains (hay needle : String) : Bool := listHasInfix needle.data hay.data

/-- Split a character list at every separator character, keeping empty
segments (Python `s.split(sep)` for a one-character separator). -/
def splitOnChar (sep : Char) : List Char → List (List Char)
  | [] => [[]]
  | c :: t =>
    if c = sep then [] :: splitOnChar sep t
    else
      match splitOnChar sep t with
      | h :: r => (c :: h) :: r
      | [] => [[c]]

/-- Split a character list at every character satisfying `p`, keeping empty
segments (the behaviour of `String.split` / one-level regex splitting). -/
def splitByPred (p : Char → Bool) : List Char → List (List Char)
  | [] => [[]]
  | c :: t =>
    if p c then [] :: splitByPred p t
    else
      match splitByPred p t with
      | h :: r => (c :: h) :: r
      | [] => [[c]]

/-- Python `str.strip()`: drop whitespace from both ends. -/
def pyStrip (s : String) : String :=
  String.mk (((s.data.dropWhile Char.isWhitespace).reverse.dropWhile Char.isWhitespace).reverse)

/-- Python `s.split("\n")`. -/
def pySplitLines (s : String) : List String :=
  (splitOnChar '\n' s.data).map String.mk

/-- `String.split` by a character predicate, over the character list. -/
def pySplitPred (p : Char → Bool) (s : String) : List String :=
  (splitByPred p s.data).map String.mk

/-- Python `str.lower()` (ASCII reading). -/
def pyLower (s : String) : String := String.mk (s.data.map Char.toLower)

/-- Python `sep.join(parts)`. -/
def pyJoin (sep : String) (parts : List String) : String :=
  String.mk (((parts.map String.data).intersperse sep.data).flatten)

/-- Truthiness of an optional string in Python (`if msg.get("error")`):
`None` and the empty string are falsy. -/
def pyTruthyErr : Option String → Bool
  | none => false
  | some s => s ≠ ""

/-! ## Conversation messages

One entry of the `rounds` list built by the orchestrator / providers:
a dict with keys `role`, `content` and (for assistant turns) `error`.
Timing/model metadata keys are not modelled (no claim touches them). -/

structure Msg where
  role : String
  content : String
  error : Option String := none
deriving Repr, DecidableEq

/-! ## llm_judge.py — judge rotation tables -/

/-- `JUDGE_ROTATION`: provider → preferred primary judge. -/
def JUDGE_ROTATION : String → Option String
  | "claude" => some "gpt"
  | "gpt" => some "claude"
  | "gemini" => some "claude"
  | "atic_on" => some "gpt"
  | "atic_off" => some "gpt"
  | _ => none

/-- `JUDGE_FALLBACK`: provider → fallback judge if the primary is unavailable. -/
def JUDGE_FALLBACK : String → Option String
  | "claude" => some "gemini"
  | "gpt" => some "gemini"
  | "gemini" => some "gpt"
  | "atic_on" => some "claude"
  | "atic_off" => some "claude"
  | _ => none

/-- `TIEBREAK_JUDGE`: provider → preferred third judge for tiebreaks. -/
def TIEBREAK_JUDGE : String → Option String
  | "claude" => some "gemini"
  | "gpt" => some "gemini"
  | "gemini" => some "gpt"
  | "atic_on" => some "gemini"
  | "atic_off" => some "gemini"
  | _ => none

/-- Result of the LLM-judge layer (`JudgeResult` dataclass). -/
structure JudgeResult where
  score_raw : ℤ
  normalized : ℚ
  reason : String := ""
  judge_model : String := ""
  judge_provider_id : String := ""
  tiebreak_used : Bool := false
  tiebreak_details : String := ""
deriving Repr, DecidableEq

/-- Audit record of the judge evaluation (`JudgeAudit` dataclass). -/
structure JudgeAudit where
  primary_judge : String
  primary_score : ℤ
  primary_reason : String
  tiebreak_judge : Option String := none
  tiebreak_score : Option ℤ := none
  tiebreak_reason : Option String := none
  final_source : String := "primary"
deriving Repr, DecidableEq

/-- Validates one candidate judge drawn from a rotation table: it must be a
non-`None` table entry, present among the available providers, and different
from the evaluated provider (the guard of the first two `return`s of
`_select_judge`). -/
def candOk (provider_id : String) (available : List String) :
    Option String → Option String
  | some c => if c ∈ available ∧ c ≠ provider_id then some c else none
  | none => none

/-- `_select_judge`: primary rotation entry, then fallback entry, then any
other available provider; never the evaluated provider itself. The available
dict is modelled as its (insertion-ordered) key list. -/
def _select_judge (provider_id : String) (available : List String) :
    Option String :=
  match candOk provider_id available (JUDGE_ROTATION provider_id) with
  | some j => some j
  | none =>
    match candOk provider_id available (JUDGE_FALLBACK provider_id) with
    | some j => some j
    | none => available.find? (fun pid => pid != provider_id)

/-- `_select_tiebreak_judge`: the tiebreak table entry if it is available and
distinct from both the evaluated provider and the primary judge, otherwise any
other available provider distinct from both. -/
def _select_tiebreak_judge (provider_id primary_judge_id : String)
    (available : List String) : Option String :=
  match TIEBREAK_JUDGE provider_id with
  | some tb =>
    if tb ∈ available ∧ tb ≠ primary_judge_id ∧ tb ≠ provider_id then some tb
    else available.find? (fun pid => pid != provider_id && pid != primary_judge_id)
  | none => available.find? (fun pid => pid != provider_id && pid != primary_judge_id)

/-- `_needs_tiebreak`: divergence between the normalized judge score and the
mean of the structural/reference normalized scores exceeds 0.5. -/
def _needs_tiebreak (judge_score : ℤ) (structural_norm reference_norm : ℚ) :
    Bool :=
  let judge_norm : ℚ := (judge_score : ℚ) / 3
  let layer_avg : ℚ := (structural_norm + reference_norm) / 2
  decide (|judge_norm - layer_avg| > 0.5)

/-- `_format_prompts`: a single prompt verbatim, otherwise `Round i: ...`
lines. -/
def _format_prompts (prompts : List String) : String :=
  match prompts with
  | [p] => p
  | _ =>
    pyJoin "\n"
      (prompts.enum.map (fun ip => "Round " ++ toString (ip.1 + 1) ++ ": " ++ ip.2))

/-- Truncation of an assistant response to 2000 characters for the judge
prompt. -/
def _truncate_response (content : String) : String :=
  if content.length > 2000 then content.take 2000 ++ "\n[... truncated]"
  else content

/-- `_format_responses`: numbered assistant responses, truncated to 2000
characters each. -/
def _format_responses (rounds : List Msg) : String :=
  let assistants := rounds.filter (fun m => m.role == "assistant")
  pyJoin "\n\n"
    (assistants.enum.map
      (fun im => "Response " ++ toString (im.1 + 1) ++ ":\n" ++ _truncate_response im.2.content))

/-- `JUDGE_PROMPT_TEMPLATE.format(...)`: the rendered judge prompt. -/
def rendered_judge_prompt (test_name category : String) (prompts : List String)
    (rounds : List Msg) (rubric : String) : String :=
  "You are an expert evaluator assessing an AI model\x27s response quality.\n\n## Task Description\nTest: "
    ++ test_name ++ "\nCategory: " ++ category ++ "\n\n## User Prompt(s)\n"
    ++ _format_prompts prompts ++ "\n\n## Model Response(s)\n"
    ++ _format_responses rounds ++ "\n\n## Evaluation Rubric\n" ++ rubric
    ++ "\n\nIMPORTANT: Score 0-3 ONLY. Output EXACTLY in this format (nothing else):\nSCORE: N\nREASON: Your explanation here (1-2 sentences)"

/-- `_fallback_result`: degraded result when no judge is available. -/
def _fallback_result : JudgeResult :=
  { score_raw := 0, normalized := 0, reason := "No judge available",
    judge_model := "none", judge_provider_id := "none" }

/-- `evaluate_judge`: judge selection, primary evaluation, optional tiebreak
arbitration. `callJudge` is the oracle modelling `_call_judge` (provider id and
rendered prompt to a parsed `(score, reason)` pair); `displayName` models
`provider.display_name`. -/
def evaluate_judge (callJudge : String → String → ℤ × String)
    (displayName : String → String) (test_name category : String)
    (prompts : List String) (rounds : List Msg) (rubric : String)
    (evaluated_provider_id : String) (available_providers : List String)
    (structural_normalized reference_normalized : ℚ)
    (enable_tiebreak : Bool) : JudgeResult × JudgeAudit :=
  match _select_judge evaluated_provider_id available_providers with
  | none =>
    (_fallback_result,
     { primary_judge := "none", primary_score := 0,
       primary_reason := "No judge available" })
  | some judge_id =>
    let judge_prompt := rendered_judge_prompt test_name category prompts rounds rubric
    let pr := callJudge judge_id judge_prompt
    let primary_score := pr.1
    let primary_reason := pr.2
    let audit : JudgeAudit :=
      { primary_judge := judge_id, primary_score := primary_score,
        primary_reason := primary_reason }
    if enable_tiebreak && _needs_tiebreak primary_score structural_normalized reference_normalized then
      match _select_tiebreak_judge evaluated_provider_id judge_id available_providers with
      | some tiebreak_id =>
        let tbr := callJudge tiebreak_id judge_prompt
        let tb_score := tbr.1
        let tb_reason := tbr.2
        let layer_avg := (structural_normalized + reference_normalized) / 2
        let layer_score_equiv := pythonRound (layer_avg * 3)
        let fs : ℤ × String :=
          if |tb_score - primary_score| ≤ 1 then
            (primary_score, "primary (tiebreak confirmed)")
          else if |tb_score - layer_score_equiv| ≤ 1 then
            (pythonRound (((primary_score : ℚ) + (tb_score : ℚ)) / 2),
             "average (tiebreak sided with layers)")
          else
            (pythonRound (((primary_score : ℚ) + (tb_score : ℚ)) / 2),
             "average (no consensus)")
        ({ score_raw := fs.1, normalized := (fs.1 : ℚ) / 3,
           reason := primary_reason, judge_model := displayName judge_id,
           judge_provider_id := judge_id, tiebreak_used := true,
           tiebreak_details := "TB judge=" ++ tiebreak_id ++ ", score=" ++ toString tb_score },
         { audit with
           tiebreak_judge := some tiebreak_id,
           tiebreak_score := some tb_score, tiebreak_reason := some tb_reason,
           final_source := fs.2 })
      | none =>
        ({ score_raw := primary_score, normalized := (primary_score : ℚ) / 3,
           reason := primary_reason, judge_model := displayName judge_id,
           judge_provider_id := judge_id }, audit)
    else
      ({ score_raw := primary_score, normalized := (primary_score : ℚ) / 3,
         reason := primary_reason, judge_model := displayName judge_id,
         judge_provider_id := judge_id }, audit)

/-! ### Helper lemmas about judge selection -/

lemma candOk_some {p j : String} {A : List String} {c : Option String}
    (h : candOk p A c = some j) : j ∈ A ∧ j ≠ p := by
  cases c with
  | none => simp [candOk] at h
  | some c' =>
    by_cases hc : c' ∈ A ∧ c' ≠ p
    · simp [candOk, hc] at h
      exact h ▸ hc
    · simp [candOk, hc] at h

lemma select_judge_mem_ne {p j : String} {A : List String}
    (h : _select_judge p A = some j) : j ∈ A ∧ j ≠ p := by
  unfold _select_judge at h
  cases h1 : candOk p A (JUDGE_ROTATION p) with
  | some j1 =>
    rw [h1] at h
    cases h
    exact candOk_some h1
  | none =>
    rw [h1] at h
    cases h2 : candOk p A (JUDGE_FALLBACK p) with
    | some j2 =>
      rw [h2] at h
      cases h
      exact candOk_some h2
    | none =>
      rw [h2] at h
      refine ⟨List.mem_of_find?_eq_some h, ?_⟩
      have := List.find?_some h
      simpa using this

lemma select_judge_ne_self (p : String) (A : List String) :
    _select_judge p A ≠ some p := by
  intro h
  exact (select_judge_mem_ne h).2 rfl

lemma select_judge_none (p : String) (A : List String)
    (hA : ∀ q ∈ A, q = p) : _select_judge p A = none := by
  cases h : _select_judge p A with
  | none => rfl
  | some j =>
    obtain ⟨hm, hne⟩ := select_judge_mem_ne h
    exact absurd (hA j hm) hne

/-- Concrete oracle used to exercise the tiebreak scenario of the spec:
the primary judge (gpt, judging claude) returns score 0, every other judge
returns score 3. -/
def scenarioOracle : String → String → ℤ × String :=
  fun judge_id _ => if judge_id = "gpt" then (0, "p") else (3, "t")

/-- C1: for every provider and availability map, `_select_judge` never returns
the evaluated provider itself; and when no other provider is available,
selection yields no judge and `evaluate_judge` degrades gracefully: raw score
0, normalized score 0, reason "No judge available", and an audit record whose
primary judge is "none". -/
theorem judge_never_self_and_degrades
    (callJudge : String → String → ℤ × String) (displayName : String → String)
    (tn cat rubric : String) (prompts : List String) (rounds : List Msg)
    (p : String) (A : List String) (s r : ℚ) (tb : Bool)
    (hA : ∀ q ∈ A, q = p) :
    (∀ p' A', _select_judge p' A' ≠ some p') ∧
    _select_judge p A = none ∧
    (evaluate_judge callJudge displayName tn cat prompts rounds rubric p A s r tb).1.score_raw = 0 ∧
    (evaluate_judge callJudge displayName tn cat prompts rounds rubric p A s r tb).1.normalized = 0 ∧
    (evaluate_judge callJudge displayName tn cat prompts rounds rubric p A s r tb).1.reason = "No judge available" ∧
    (evaluate_judge callJudge displayName tn cat prompts rounds rubric p A s r tb).2.primary_judge = "none" := by
  have hnone := select_judge_none p A hA
  refine ⟨fun p' A' => select_judge_ne_self p' A', hnone, ?_, ?_, ?_, ?_⟩ <;>
    simp [evaluate_judge, hnone, _fallback_result]

/-- Witness for C1 at the single-provider set `["gpt"]`. -/
theorem judge_never_self_and_degrades_witness :
    (∀ q ∈ ["gpt"], q = "gpt") ∧
    (evaluate_judge (fun _ _ => ((0 : ℤ), "")) (fun s => s) "t" "c" [] [] "r"
        "gpt" ["gpt"] 0 0 true).1.score_raw = 0 :=
  ⟨by decide,
   (judge_never_self_and_degrades (fun _ _ => ((0 : ℤ), "")) (fun s => s)
      "t" "c" "r" [] [] "gpt" ["gpt"] 0 0 true (by decide)).2.2.1⟩

/-! ### Evaluation helpers for concrete rationals -/

lemma ratEq_mkRat (n : ℤ) (d : ℕ) : (mkRat n d : ℚ) = (n : ℚ) / (d : ℚ) := by
  rw [Rat.mkRat_eq_divInt, Rat.divInt_eq_div]
  norm_num

lemma pyFloor_eval (q : ℚ) (n : ℤ) (d : ℕ) (f : ℤ) (hq : q = mkRat n d)
    (hf : Int.ediv (mkRat n d).num ((mkRat n d).den : ℤ) = f) : pyFloor q = f := by
  rw [hq, pyFloor, hf]

lemma pythonRound_shape (q : ℚ) (f : ℤ) (hf : pyFloor q = f) :
    pythonRound q =
      if q - f < 1/2 then f
      else if q - f > 1/2 then f + 1
      else if f % 2 = 0 then f else f + 1 := by
  simp only [pythonRound, hf]

lemma pythonRound_intCast (n : ℤ) : pythonRound ((n : ℚ)) = n := by
  have hf : pyFloor ((n : ℚ)) = n := by
    simp only [pyFloor, Rat.num_intCast, Rat.den_intCast, Nat.cast_one]
    exact Int.ediv_one n
  rw [pythonRound_shape _ n hf]
  have h0 : (n : ℚ) - (n : ℤ) = 0 := by ring
  rw [h0]
  norm_num

lemma pythonRound_three_halves : pythonRound ((3 : ℚ) / 2) = 2 := by
  have hq : (3 : ℚ) / 2 = mkRat 3 2 := by
    rw [ratEq_mkRat]
    norm_num
  have hf : pyFloor ((3 : ℚ) / 2) = 1 := pyFloor_eval _ 3 2 1 hq (by decide)
  rw [pythonRound_shape _ 1 hf]
  have h1 : (3 : ℚ) / 2 - (1 : ℤ) = 1 / 2 := by push_cast; ring
  rw [h1]
  norm_num

/-- C2: when a tiebreak judge is invoked, the final raw judge score and the
resolution label are the stated pure function of
(primary score, tiebreak score, structural normalized, reference normalized):
primary score with label "primary (tiebreak confirmed)" when the two judges
are within 1 point; otherwise the rounded average, labelled
"average (tiebreak sided with layers)" when the tiebreak is within 1 point of
the layers' 0-3 equivalent and "average (no consensus)" otherwise. In
particular, primary 0, structural 1, reference 1 and tiebreak 3 yield final
raw score 2 with the "sided with layers" label. -/
theorem tiebreak_resolution_rule
    (callJudge : String → String → ℤ × String) (displayName : String → String)
    (tn cat rubric : String) (prompts : List String) (rounds : List Msg)
    (p : String) (A : List String) (s r : ℚ)
    (j t : String) (ps ts : ℤ) (reason1 reason2 : String)
    (hj : _select_judge p A = some j)
    (hps : callJudge j (rendered_judge_prompt tn cat prompts rounds rubric) = (ps, reason1))
    (hneed : _needs_tiebreak ps s r = true)
    (ht : _select_tiebreak_judge p j A = some t)
    (hts : callJudge t (rendered_judge_prompt tn cat prompts rounds rubric) = (ts, reason2)) :
    ((evaluate_judge callJudge displayName tn cat prompts rounds rubric p A s r true).1.tiebreak_used = true) ∧
    (|ts - ps| ≤ 1 →
      (evaluate_judge callJudge displayName tn cat prompts rounds rubric p A s r true).1.score_raw = ps ∧
      (evaluate_judge callJudge displayName tn cat prompts rounds rubric p A s r true).2.final_source
        = "primary (tiebreak confirmed)") ∧
    (¬ |ts - ps| ≤ 1 → |ts - pythonRound ((s + r) / 2 * 3)| ≤ 1 →
      (evaluate_judge callJudge displayName tn cat prompts rounds rubric p A s r true).1.score_raw
        = pythonRound (((ps : ℚ) + (ts : ℚ)) / 2) ∧
      (evaluate_judge callJudge displayName tn cat prompts rounds rubric p A s r true).2.final_source
        = "average (tiebreak sided with layers)") ∧
    (¬ |ts - ps| ≤ 1 → ¬ |ts - pythonRound ((s + r) / 2 * 3)| ≤ 1 →
      (evaluate_judge callJudge displayName tn cat prompts rounds rubric p A s r true).1.score_raw
        = pythonRound (((ps : ℚ) + (ts : ℚ)) / 2) ∧
      (evaluate_judge callJudge displayName tn cat prompts rounds rubric p A s r true).2.final_source
        = "average (no consensus)") := by
  have E : evaluate_judge callJudge displayName tn cat prompts rounds rubric p A s r true =
      (if |ts - ps| ≤ 1 then
        ({ score_raw := ps, normalized := (ps : ℚ) / 3, reason := reason1,
           judge_model := displayName j, judge_provider_id := j,
           tiebreak_used := true,
           tiebreak_details := "TB judge=" ++ t ++ ", score=" ++ toString ts },
         { primary_judge := j, primary_score := ps, primary_reason := reason1,
           tiebreak_judge := some t, tiebreak_score := some ts,
           tiebreak_reason := some reason2,
           final_source := "primary (tiebreak confirmed)" })
       else if |ts - pythonRound ((s + r) / 2 * 3)| ≤ 1 then
        ({ score_raw := pythonRound (((ps : ℚ) + (ts : ℚ)) / 2),
           normalized := (pythonRound (((ps : ℚ) + (ts : ℚ)) / 2) : ℚ) / 3,
           reason := reason1, judge_model := displayName j,
           judge_provider_id := j, tiebreak_used := true,
           tiebreak_details := "TB judge=" ++ t ++ ", score=" ++ toString ts },
         { primary_judge := j, primary_score := ps, primary_reason := reason1,
           tiebreak_judge := some t, tiebreak_score := some ts,
           tiebreak_reason := some reason2,
           final_source := "average (tiebreak sided with layers)" })
       else
        ({ score_raw := pythonRound (((ps : ℚ) + (ts : ℚ)) / 2),
           normalized := (pythonRound (((ps : ℚ) + (ts : ℚ)) / 2) : ℚ) / 3,
           reason := reason1, judge_model := displayName j,
           judge_provider_id := j, tiebreak_used := true,
           tiebreak_details := "TB judge=" ++ t ++ ", score=" ++ toString ts },
         { primary_judge := j, primary_score := ps, primary_reason := reason1,
           tiebreak_judge := some t, tiebreak_score := some ts,
           tiebreak_reason := some reason2,
           final_source := "average (no consensus)" })) := by
    simp only [evaluate_judge, hj, hps, hneed, ht, hts, Bool.true_and, if_true]
    by_cases h1 : |ts - ps| ≤ 1
    · rw [if_pos h1, if_pos h1]
    · rw [if_neg h1, if_neg h1]
      by_cases h2 : |ts - pythonRound ((s + r) / 2 * 3)| ≤ 1
      · rw [if_pos h2, if_pos h2]
      · rw [if_neg h2, if_neg h2]
  rw [E]
  by_cases h1 : |ts - ps| ≤ 1
  · rw [if_pos h1]
    exact ⟨rfl, fun _ => ⟨rfl, rfl⟩, fun hc => absurd h1 hc, fun hc => absurd h1 hc⟩
  · rw [if_neg h1]
    by_cases h2 : |ts - pythonRound ((s + r) / 2 * 3)| ≤ 1
    · rw [if_pos h2]
      exact ⟨rfl, fun hc => absurd hc h1, fun _ _ => ⟨rfl, rfl⟩, fun _ hc => absurd h2 hc⟩
    · rw [if_neg h2]
      exact ⟨rfl, fun hc => absurd hc h1, fun _ hc => absurd hc h2, fun _ _ => ⟨rfl, rfl⟩⟩

/-- Witness for C2 at the spec's scenario: provider claude, judges gpt
(primary, score 0) and gemini (tiebreak, score 3), structural and reference
normalized both 1; the arbitration yields raw score 2 with the
"sided with layers" label. -/
theorem tiebreak_resolution_rule_witness :
    (evaluate_judge scenarioOracle (fun s => s) "n" "c" ["q"] [] "rub"
        "claude" ["claude", "gpt", "gemini"] 1 1 true).1.tiebreak_used = true ∧
    (evaluate_judge scenarioOracle (fun s => s) "n" "c" ["q"] [] "rub"
        "claude" ["claude", "gpt", "gemini"] 1 1 true).1.score_raw = 2 ∧
    (evaluate_judge scenarioOracle (fun s => s) "n" "c" ["q"] [] "rub"
        "claude" ["claude", "gpt", "gemini"] 1 1 true).2.final_source
      = "average (tiebreak sided with layers)" := by
  have hneed0 : _needs_tiebreak 0 1 1 = true := by
    simp only [_needs_tiebreak, decide_eq_true_eq]
    norm_num
  have H := tiebreak_resolution_rule scenarioOracle (fun s => s) "n" "c" "rub"
    ["q"] [] "claude" ["claude", "gpt", "gemini"] 1 1 "gpt" "gemini" 0 3 "p" "t"
    (by decide) rfl hneed0 (by decide) rfl
  obtain ⟨hu, _, hmid, _⟩ := H
  have h1 : ¬ (|(3 : ℤ) - 0| ≤ 1) := by decide
  have hlay : pythonRound (((1 : ℚ) + 1) / 2 * 3) = 3 := by
    rw [show ((1 : ℚ) + 1) / 2 * 3 = (((3 : ℤ) : ℚ)) by push_cast; ring]
    exact pythonRound_intCast 3
  have h2 : |(3 : ℤ) - pythonRound (((1 : ℚ) + 1) / 2 * 3)| ≤ 1 := by
    rw [hlay]
    decide
  obtain ⟨hsc, hlb⟩ := hmid h1 h2
  have havg : pythonRound ((((0 : ℤ) : ℚ) + ((3 : ℤ) : ℚ)) / 2) = 2 := by
    rw [show (((0 : ℤ) : ℚ) + ((3 : ℤ) : ℚ)) / 2 = (3 : ℚ) / 2 by push_cast; ring]
    exact pythonRound_three_halves
  rw [havg] at hsc
  exact ⟨hu, hsc, hlb⟩

lemma tiebreak_used_iff
    (callJudge : String → String → ℤ × String) (displayName : String → String)
    (tn cat rubric : String) (prompts : List String) (rounds : List Msg)
    (p : String) (A : List String) (s r : ℚ) (enable : Bool) :
    (evaluate_judge callJudge displayName tn cat prompts rounds rubric p A s r enable).1.tiebreak_used = true
      ↔ (enable = true ∧ ∃ j, _select_judge p A = some j ∧
          _needs_tiebreak (callJudge j (rendered_judge_prompt tn cat prompts rounds rubric)).1 s r = true ∧
          (_select_tiebreak_judge p j A).isSome = true) := by
  cases hsel : _select_judge p A with
  | none => simp [evaluate_judge, hsel, _fallback_result]
  | some j0 =>
    cases henable : enable with
    | false => simp [evaluate_judge, hsel]
    | true =>
      cases hneed : _needs_tiebreak (callJudge j0 (rendered_judge_prompt tn cat prompts rounds rubric)).1 s r with
      | false => simp [evaluate_judge, hsel, hneed]
      | true =>
        cases htb : _select_tiebreak_judge p j0 A with
        | none => simp [evaluate_judge, hsel, hneed, htb]
        | some t => simp [evaluate_judge, hsel, hneed, htb]

/-- C3 counterexample: evaluated provider gemini with availability
["gemini", "gpt"], tiebreak enabled, primary judge score 3 against structural
and reference scores 0. The divergence |3/3 - 0| = 1 exceeds 0.5 and tiebreak
is enabled, yet the returned tiebreak_used flag is false: no third distinct
provider exists, so no tiebreak evaluation is invoked, refuting the claimed
"if and only if". -/
theorem tiebreak_gate_counterexample :
    _needs_tiebreak 3 0 0 = true ∧
    (evaluate_judge (fun _ _ => ((3 : ℤ), "x")) (fun s => s) "n" "c" ["q"] []
        "rub" "gemini" ["gemini", "gpt"] 0 0 true).1.tiebreak_used = false := by
  have hneed : _needs_tiebreak 3 0 0 = true := by
    simp only [_needs_tiebreak, decide_eq_true_eq]
    rw [show (((3 : ℤ) : ℚ) / 3 - ((0 : ℚ) + 0) / 2) = 1 by push_cast; ring, abs_one]
    norm_num
  have hsel : _select_judge "gemini" ["gemini", "gpt"] = some "gpt" := by decide
  have htb : _select_tiebreak_judge "gemini" "gpt" ["gemini", "gpt"] = none := by decide
  exact ⟨hneed, by simp [evaluate_judge, hsel, hneed, htb]⟩

/-- C3 (amended): a tiebreak evaluation is invoked (tiebreak_used is true) if
and only if tiebreak is enabled for the run, a primary judge was selected, the
divergence |primary/3 - (structural + reference)/2| exceeds 0.5, and a third
tiebreak judge distinct from both the evaluated provider and the primary judge
is available; in particular with tiebreak disabled the returned tiebreak_used
flag is always false regardless of divergence. -/
theorem tiebreak_gate
    (callJudge : String → String → ℤ × String) (displayName : String → String)
    (tn cat rubric : String) (prompts : List String) (rounds : List Msg)
    (p : String) (A : List String) (s r : ℚ) (enable : Bool) :
    ((evaluate_judge callJudge displayName tn cat prompts rounds rubric p A s r enable).1.tiebreak_used = true
      ↔ (enable = true ∧ ∃ j, _select_judge p A = some j ∧
          _needs_tiebreak (callJudge j (rendered_judge_prompt tn cat prompts rounds rubric)).1 s r = true ∧
          (_select_tiebreak_judge p j A).isSome = true)) ∧
    (evaluate_judge callJudge displayName tn cat prompts rounds rubric p A s r false).1.tiebreak_used = false := by
  refine ⟨tiebreak_used_iff callJudge displayName tn cat rubric prompts rounds p A s r enable, ?_⟩
  cases hb : (evaluate_judge callJudge displayName tn cat prompts rounds rubric p A s r false).1.tiebreak_used with
  | false => rfl
  | true =>
    have h := (tiebreak_used_iff callJudge displayName tn cat rubric prompts rounds p A s r false).mp hb
    exact absurd h.1 (by simp)

/-! ## Oracle environment

External facilities used by the evaluators: the Python `re` regex engine and
the number-extraction helpers built on it. Modelling these as oracle
parameters keeps the surrounding control flow exact while abstracting the
regex engine itself; every theorem below holds for all oracles. -/

structure Env where
  /-- `re.search(pattern, text, IGNORECASE | DOTALL)` (and, for anti-keywords,
  `re.search(pattern, text_lower, IGNORECASE)`): `none` models an
  `re.error` raised for an invalid pattern, `some b` whether a match exists. -/
  search : String → String → Option Bool
  /-- `re.match(combined_item_pattern, line)` of `_check_min_items`: whether a
  line looks like a list item (the combined pattern is a fixed valid regex, so
  no error case). -/
  itemLine : String → Bool
  /-- The regex number extraction plus float parsing of
  `_check_numeric_in_range` (`re.findall` of `[\d]+(?:[.,]\d+)?` with `,`
  normalised to `.`). -/
  structuralNumbers : String → List ℚ
  /-- `_extract_numbers` of reference.py: regex extraction of numbers with
  thousand/decimal separator handling and magnitude suffixes. -/
  extractNumbers : String → List ℚ
  /-- `re.findall(pattern, text, IGNORECASE)` used over the fake-citation
  patterns of `_anti_hallucination_check`. -/
  findAll : String → String → List String
  /-- `_call_judge(provider, prompt)`: the parsed `(score, reason)` of an LLM
  judge call. -/
  callJudge : String → String → ℤ × String
  /-- `provider.display_name` of an available provider. -/
  displayName : String → String

/-- A concrete trivial environment, used to instantiate counterexamples and
witnesses. -/
def trivialEnv : Env :=
  { search := fun _ _ => some false, itemLine := fun _ => false,
    structuralNumbers := fun _ => [], extractNumbers := fun _ => [],
    findAll := fun _ _ => [], callJudge := fun _ _ => (0, ""),
    displayName := fun s => s }

/-! ## test_defs.py — data model -/

/-- `StructuralCheck` dataclass. -/
structure StructuralCheck where
  check_id : String
  description : String
  check_type : String
  pattern : String := ""
  threshold : ℚ := 0
  threshold_max : ℚ := 0
  weight : ℚ := 1
  target_round : ℤ := -1
deriving Repr, DecidableEq

/-- `TestDef` dataclass. Numeric ranges (a Python dict of named pairs) are an
insertion-ordered association list. -/
structure TestDef where
  test_id : String
  name : String := ""
  category : String := ""
  difficulty : String := ""
  language : String := ""
  prompts : List String := []
  structural_checks : List StructuralCheck := []
  ground_truth : Option String := none
  reference_keywords : List String := []
  reference_anti_keywords : List String := []
  reference_numeric_ranges : List (String × ℚ × ℚ) := []
  judge_rubric : String := ""
  anti_hallucination : Bool := false
  domain : String := "general"
  tags : List String := []
deriving Repr, DecidableEq

/-! ## structural.py — deterministic structural checks -/

/-- Result of one structural check (`CheckResult` dataclass; the
human-readable `detail` diagnostic string is not modelled, no claim concerns
it). -/
structure CheckResult where
  check_id : String
  description : String
  passed : Bool
  score : ℚ
deriving Repr, DecidableEq

/-- Aggregate structural layer score (`StructuralScore` dataclass). -/
structure StructuralScore where
  normalized : ℚ
  details : List CheckResult := []
  total_weight : ℚ := 0
  weighted_score : ℚ := 0
deriving Repr, DecidableEq

/-- `_extract_assistant_texts`: contents of the assistant messages. -/
def _extract_assistant_texts (rounds : List Msg) : List String :=
  (rounds.filter (fun m => m.role == "assistant")).map (fun m => m.content)

/-- `_get_target_text`: the all-rounds concatenation for target_round -1, the
selected assistant response when the index is in range, and the concatenation
as fallback for any out-of-range index. -/
def _get_target_text (check : StructuralCheck) (assistant_texts : List String)
    (all_text : String) : String :=
  if check.target_round = -1 then all_text
  else if 0 ≤ check.target_round ∧ check.target_round < (assistant_texts.length : ℤ) then
    assistant_texts.getD check.target_round.toNat ""
  else all_text

/-- Python `text.strip().split("\n")` filtered to non-blank lines, as in
`_check_min_lines`. -/
def pyNonblankLines (text : String) : List String :=
  (pySplitLines (pyStrip text)).filter (fun l => pyStrip l ≠ "")

/-- `_check_regex_present`. -/
def _check_regex_present (env : Env) (check : StructuralCheck) (text : String) :
    CheckResult :=
  match env.search check.pattern text with
  | none =>
    { check_id := check.check_id, description := check.description,
      passed := false, score := 0 }
  | some found =>
    { check_id := check.check_id, description := check.description,
      passed := found, score := if found then 1 else 0 }

/-- `_check_regex_absent`. -/
def _check_regex_absent (env : Env) (check : StructuralCheck) (text : String) :
    CheckResult :=
  match env.search check.pattern text with
  | none =>
    { check_id := check.check_id, description := check.description,
      passed := false, score := 0 }
  | some found =>
    { check_id := check.check_id, description := check.description,
      passed := !found, score := if !found then 1 else 0 }

/-- `_check_min_lines`: count non-blank lines; full credit at or above the
(truncated) threshold, half credit at or above 60% of it, zero otherwise. -/
def _check_min_lines (check : StructuralCheck) (text : String) : CheckResult :=
  let count : ℤ := (pyNonblankLines text).length
  let required : ℤ := pyInt check.threshold
  { check_id := check.check_id, description := check.description,
    passed := required ≤ count,
    score :=
      if required ≤ count then 1
      else if (required : ℚ) * (6 / 10) ≤ (count : ℚ) then 1 / 2
      else 0 }

/-- `_check_min_items`: count lines matching the bullet/enumeration/table
patterns; same 100%/60% scoring as min_lines. -/
def _check_min_items (env : Env) (check : StructuralCheck) (text : String) :
    CheckResult :=
  let lines := pySplitLines (pyStrip text)
  let items : ℤ := (lines.filter env.itemLine).length
  let required : ℤ := pyInt check.threshold
  { check_id := check.check_id, description := check.description,
    passed := required ≤ items,
    score :=
      if required ≤ items then 1
      else if (required : ℚ) * (6 / 10) ≤ (items : ℚ) then 1 / 2
      else 0 }

/-- `_check_numeric_in_range`: some extracted number lies in
[threshold, threshold_max] (default upper bound: threshold × 1.1). -/
def _check_numeric_in_range (env : Env) (check : StructuralCheck)
    (text : String) : CheckResult :=
  let parsed := env.structuralNumbers text
  let low := check.threshold
  let high := if 0 < check.threshold_max then check.threshold_max
    else check.threshold * (11 / 10)
  let found := parsed.any (fun n => decide (low ≤ n ∧ n ≤ high))
  { check_id := check.check_id, description := check.description,
    passed := found, score := if found then 1 else 0 }

/-- A word character in the sense of the regex `\w` (ASCII reading). -/
def isWordChar (c : Char) : Bool := c.isAlphanum || c == '_'

/-- The word list `re.findall(r"\w+", text)`: maximal runs of word
characters. -/
def wordRuns (s : String) : List String :=
  (pySplitPred (fun c => !isWordChar c) s).filter (fun w => w ≠ "")

/-- Significant words of one round for the consistency check: words longer
than 3 characters, lowercased, as a set. -/
def significantWords (text : String) : Finset String :=
  (((wordRuns text).filter (fun w => 3 < w.length)).map
    (fun w => pyLower w)).toFinset

/-- `_check_multi_round_consistency`: mean Jaccard similarity of significant
words over consecutive rounds against the threshold (default 0.15). -/
def _check_multi_round_consistency (check : StructuralCheck)
    (assistant_texts : List String) : CheckResult :=
  if assistant_texts.length < 2 then
    { check_id := check.check_id, description := check.description,
      passed := true, score := 1 }
  else
    let word_sets := assistant_texts.map significantWords
    let similarities := (word_sets.zip word_sets.tail).map
      (fun ab =>
        if ab.1 ∪ ab.2 = ∅ then (0 : ℚ)
        else ((ab.1 ∩ ab.2).card : ℚ) / ((ab.1 ∪ ab.2).card : ℚ))
    let avg_sim := if similarities = [] then (0 : ℚ)
      else similarities.sum / (similarities.length : ℚ)
    let threshold := if 0 < check.threshold then check.threshold else 15 / 100
    { check_id := check.check_id, description := check.description,
      passed := threshold ≤ avg_sim,
      score :=
        if threshold ≤ avg_sim then 1
        else if threshold * (1 / 2) ≤ avg_sim then 1 / 2
        else 0 }

/-- Python `text.split()`: whitespace-separated words. -/
def pyWords (text : String) : List String :=
  (pySplitPred (fun c => c.isWhitespace) text).filter (fun w => w ≠ "")

/-- `_check_word_count_range`: word count within [threshold, threshold_max]
(default max 9999); half credit within 60% below or 140% above. -/
def _check_word_count_range (check : StructuralCheck) (text : String) :
    CheckResult :=
  let count : ℤ := (pyWords text).length
  let min_words : ℤ := pyInt check.threshold
  let max_words : ℤ := if 0 < check.threshold_max then pyInt check.threshold_max
    else 9999
  let in_range := min_words ≤ count ∧ count ≤ max_words
  { check_id := check.check_id, description := check.description,
    passed := decide in_range,
    score :=
      if in_range then 1
      else if count < min_words ∧ (min_words : ℚ) * (6 / 10) ≤ (count : ℚ) then 1 / 2
      else if max_words < count ∧ (count : ℚ) ≤ (max_words : ℚ) * (14 / 10) then 1 / 2
      else 0 }

/-- `_evaluate_single_check`: dispatch on check_type; unknown types fail with
score 0. -/
def _evaluate_single_check (env : Env) (check : StructuralCheck)
    (assistant_texts : List String) (all_text : String) : CheckResult :=
  let target := _get_target_text check assistant_texts all_text
  if check.check_type = "multi_round_consistency" then
    _check_multi_round_consistency check assistant_texts
  else if check.check_type = "regex_present" then
    _check_regex_present env check target
  else if check.check_type = "regex_absent" then
    _check_regex_absent env check target
  else if check.check_type = "min_lines" then
    _check_min_lines check target
  else if check.check_type = "min_items" then
    _check_min_items env check target
  else if check.check_type = "numeric_in_range" then
    _check_numeric_in_range env check target
  else if check.check_type = "word_count_range" then
    _check_word_count_range check target
  else
    { check_id := check.check_id, description := check.description,
      passed := false, score := 0 }

/-- `evaluate_structural`: weighted aggregation of the individual checks,
clamped to [0, 1]; an empty check list scores 1. -/
def evaluate_structural (env : Env) (checks : List StructuralCheck)
    (rounds : List Msg) : StructuralScore :=
  if checks = [] then { normalized := 1 }
  else
    let assistant_texts := _extract_assistant_texts rounds
    let all_text := pyJoin "\n" assistant_texts
    let results := checks.map (fun c => _evaluate_single_check env c assistant_texts all_text)
    let total_weight := (checks.map (fun c => c.weight)).sum
    let weighted_score := ((results.zip checks).map (fun rc => rc.1.score * rc.2.weight)).sum
    let normalized := max 0 (min 1 (if 0 < total_weight then weighted_score / total_weight else 0))
    { normalized := normalized, details := results,
      total_weight := total_weight, weighted_score := weighted_score }

lemma pyInt_natCast (n : ℕ) : pyInt ((n : ℚ)) = n := by
  simp only [pyInt, Rat.num_natCast, Rat.den_natCast, Nat.cast_one]
  exact Int.tdiv_one _

/-- C6: the normalized structural score lies in [0, 1] for every environment,
check list and conversation, and an empty check list scores exactly 1. -/
theorem structural_normalized_in_unit
    (env : Env) (checks : List StructuralCheck) (rounds : List Msg) :
    0 ≤ (evaluate_structural env checks rounds).normalized ∧
    (evaluate_structural env checks rounds).normalized ≤ 1 ∧
    (evaluate_structural env [] rounds).normalized = 1 := by
  refine ⟨?_, ?_, by simp [evaluate_structural]⟩ <;>
  · by_cases h : checks = []
    · simp [evaluate_structural, h]
    · simp only [evaluate_structural, if_neg h]
      first
        | exact le_max_left _ _
        | exact max_le (by norm_num) (min_le_left _ _)

/-- Concrete min_lines check with threshold 5, for the C8 scenario. -/
def minLinesCheck : StructuralCheck :=
  { check_id := "c", description := "d", check_type := "min_lines",
    threshold := 5 }

/-- C8: the min_lines check counts non-blank lines and scores 1 (passed) at or
above the threshold, 1/2 (not passed) at or above 60% of the threshold, and 0
(not passed) otherwise. -/
theorem min_lines_scoring (check : StructuralCheck) (text : String) (n : ℕ)
    (hn : check.threshold = (n : ℚ)) :
    ((n : ℤ) ≤ ((pyNonblankLines text).length : ℤ) →
      (_check_min_lines check text).score = 1 ∧
      (_check_min_lines check text).passed = true) ∧
    (((pyNonblankLines text).length : ℤ) < (n : ℤ) →
      (n : ℚ) * (6 / 10) ≤ ((pyNonblankLines text).length : ℚ) →
      (_check_min_lines check text).score = 1 / 2 ∧
      (_check_min_lines check text).passed = false) ∧
    (((pyNonblankLines text).length : ℤ) < (n : ℤ) →
      ((pyNonblankLines text).length : ℚ) < (n : ℚ) * (6 / 10) →
      (_check_min_lines check text).score = 0 ∧
      (_check_min_lines check text).passed = false) := by
  have hreq : pyInt check.threshold = (n : ℤ) := by rw [hn]; exact pyInt_natCast n
  refine ⟨fun hge => ?_, fun hlt h60 => ?_, fun hlt h60 => ?_⟩ <;>
    simp only [_check_min_lines, hreq]
  · rw [if_pos hge]
    exact ⟨rfl, by simp [hge]⟩
  · rw [if_neg (by omega), if_pos (by push_cast at h60 ⊢; exact h60)]
    exact ⟨rfl, by simp; omega⟩
  · rw [if_neg (by omega), if_neg (by push_cast at h60 ⊢; exact not_le.mpr h60)]
    exact ⟨rfl, by simp; omega⟩

/-- Witness for C8: threshold 5, response with exactly 3 non-blank lines,
yielding score 1/2 and passed = false. -/
theorem min_lines_scoring_witness :
    (_check_min_lines minLinesCheck "a\n\nb\nc").score = 1 / 2 ∧
    (_check_min_lines minLinesCheck "a\n\nb\nc").passed = false := by
  have hlen : (pyNonblankLines "a\n\nb\nc").length = 3 := by decide
  have H := (min_lines_scoring minLinesCheck "a\n\nb\nc" 5 (by norm_num [minLinesCheck])).2.1
  exact H (by rw [hlen]; norm_num) (by rw [hlen]; push_cast; norm_num)

/-- Concrete out-of-range check for the C10 witness. -/
def outOfRangeCheck : StructuralCheck :=
  { check_id := "c", description := "d", check_type := "min_lines",
    threshold := 1, target_round := 5 }

/-- C10: for every structural check whose target_round is neither -1 nor a
valid assistant-response index, `_get_target_text` totally falls back to the
all-rounds concatenation. -/
theorem target_round_fallback (check : StructuralCheck)
    (assistant_texts : List String) (all_text : String)
    (h1 : check.target_round ≠ -1)
    (h2 : check.target_round < 0 ∨ (assistant_texts.length : ℤ) ≤ check.target_round) :
    _get_target_text check assistant_texts all_text = all_text := by
  simp only [_get_target_text, if_neg h1]
  rw [if_neg]
  rintro ⟨ha, hb⟩
  rcases h2 with h | h <;> omega

/-- Witness for C10: target_round 5 with a single assistant response. -/
theorem target_round_fallback_witness :
    outOfRangeCheck.target_round ≠ -1 ∧
    _get_target_text outOfRangeCheck ["r0"] "all" = "all" :=
  ⟨by decide,
   target_round_fallback outOfRangeCheck ["r0"] "all" (by decide)
     (Or.inr (by norm_num [outOfRangeCheck]))⟩

/-! ## reference.py — ground truth and anti-hallucination layer -/

/-- The five fake-citation regex patterns (`FAKE_CITATION_PATTERNS`); they are
data handed to the regex oracle. -/
def FAKE_CITATION_PATTERNS : List String :=
  ["doi:\\s*10\\.\\d\x7b4,\x7d/[a-z]\x7b2,\x7d\\.\\d\x7b4\x7d\\.\\d\x7b6,\x7d",
   "https?://(?:www\\.)?(?:journal|research|science)\\w+\\.(?:com|org)/\\w\x7b8,\x7d",
   "(?<!\\w)[A-Z][a-z]+\\s+et\\s+al\\.\\s*\\(\\d\x7b4\x7d\\)(?!\\s*[,;.]?\\s*[\\\x22\x27])",
   "pp?\\.\\s*\\d\x7b4,\x7d-\\d\x7b4,\x7d",
   "arXiv:\\d\x7b4\x7d\\.\\d\x7b6,\x7d"]

/-- Aggregate reference layer score (`ReferenceScore` dataclass); sub-scores
are an insertion-ordered association list. -/
structure ReferenceScore where
  normalized : ℚ
  sub_scores : List (String × ℚ) := []
  hallucination_flags : List String := []
deriving Repr, DecidableEq

/-- `_extract_full_response`: assistant contents joined with newlines. -/
def _extract_full_response (rounds : List Msg) : String :=
  pyJoin "\n" ((rounds.filter (fun m => m.role == "assistant")).map (fun m => m.content))

/-- `_keyword_coverage`: fraction of keywords present (case-insensitive). -/
def _keyword_coverage (text : String) (keywords : List String) : ℚ :=
  if keywords = [] then 1
  else
    ((keywords.filter (fun kw => pyContains (pyLower text) (pyLower kw))).length : ℚ)
      / (keywords.length : ℚ)

/-- `_anti_keyword_absence`: 1 minus the fraction of anti-keyword patterns
found (each pattern first as a regex on the lowered text, or as a literal
substring if the regex is invalid), clamped below at 0. -/
def _anti_keyword_absence (env : Env) (text : String)
    (anti_keywords : List String) : ℚ :=
  if anti_keywords = [] then 1
  else
    let violations := (anti_keywords.filter (fun pat =>
      match env.search pat (pyLower text) with
      | some found => found
      | none => pyContains (pyLower text) (pyLower pat))).length
    max 0 (1 - (violations : ℚ) / (anti_keywords.length : ℚ))

/-- `_numeric_accuracy`: fraction of expected ranges hit by some extracted
number. -/
def _numeric_accuracy (env : Env) (text : String)
    (ranges : List (String × ℚ × ℚ)) : ℚ :=
  if ranges = [] then 1
  else
    let numbers := env.extractNumbers text
    ((ranges.filter (fun rg =>
        numbers.any (fun n => decide (rg.2.1 ≤ n ∧ n ≤ rg.2.2)))).length : ℚ)
      / (ranges.length : ℚ)

/-- `_get_trigrams`: character 3-grams of the word-normalised text. -/
def _get_trigrams (text : String) : Finset String :=
  let joined := pyJoin " " (wordRuns text)
  ((List.range (joined.data.length - 2)).map
    (fun i => String.mk ((joined.data.drop i).take 3))).toFinset

/-- `_text_similarity`: Jaccard similarity of lowercased trigram sets. -/
def _text_similarity (response ground_truth : String) : ℚ :=
  let resp := _get_trigrams (pyLower response)
  let truth := _get_trigrams (pyLower ground_truth)
  if resp = ∅ ∨ truth = ∅ then 0
  else if resp ∪ truth = ∅ then 0
  else ((resp ∩ truth).card : ℚ) / ((resp ∪ truth).card : ℚ)

/-- `_anti_hallucination_check`: flags every fake-citation match (truncated to
80 characters); each flag costs 0.15 of the score, with the penalty capped at
1 and the score floored at 0. -/
def _anti_hallucination_check (env : Env) (text : String) : ℚ × List String :=
  let flags := (FAKE_CITATION_PATTERNS.map (fun pat =>
    (env.findAll pat text).map
      (fun m => "Citacao suspeita: " ++ m.take 80))).flatten
  if flags = [] then (1, [])
  else (max 0 (1 - min ((flags.length : ℚ) * (15 / 100)) 1), flags)

/-- Python truthiness of `test.ground_truth` (`None` or empty string is
falsy). -/
def groundTruthFalsy : Option String → Bool
  | none => true
  | some s => s == ""

/-- `evaluate_reference`: mean of the active sub-scores, clamped to [0, 1];
blank responses score 0, no active sub-check scores 1. -/
def evaluate_reference (env : Env) (test : TestDef) (rounds : List Msg) :
    ReferenceScore :=
  let full_text := _extract_full_response rounds
  if pyStrip full_text = "" then { normalized := 0 }
  else
    let subs1 : List (String × ℚ) :=
      if test.reference_keywords = [] then [] else
        [("keyword_coverage", _keyword_coverage full_text test.reference_keywords)]
    let subs2 := subs1 ++
      (if test.reference_anti_keywords = [] then [] else
        [("anti_keyword_absence",
          _anti_keyword_absence env full_text test.reference_anti_keywords)])
    let subs3 := subs2 ++
      (if test.reference_numeric_ranges = [] then [] else
        [("numeric_accuracy",
          _numeric_accuracy env full_text test.reference_numeric_ranges)])
    let subs4 := subs3 ++
      (if groundTruthFalsy test.ground_truth then [] else
        [("text_similarity",
          _text_similarity full_text (test.ground_truth.getD ""))])
    let hal := if test.anti_hallucination then
        some (_anti_hallucination_check env full_text) else none
    let subs5 := subs4 ++
      (match hal with
       | some hp => [("anti_hallucination", hp.1)]
       | none => [])
    let hallucination_flags := match hal with
      | some hp => hp.2
      | none => []
    let active := subs5.length
    let normalized := max 0 (min 1
      (if 0 < active then (subs5.map (fun sc => sc.2)).sum / (active : ℚ) else 1))
    { normalized := normalized, sub_scores := subs5,
      hallucination_flags := hallucination_flags }

/-- A test with no reference sub-checks, for the C7 theorems. -/
def emptyRefTest : TestDef := { test_id := "t0" }

/-- C7 counterexample: a test with none of the five reference sub-checks
applying, evaluated over an empty conversation: the concatenated assistant
text is blank, so `evaluate_reference` returns 0, not the claimed 1. -/
theorem reference_vacuous_counterexample :
    emptyRefTest.reference_keywords = [] ∧
    emptyRefTest.reference_anti_keywords = [] ∧
    emptyRefTest.reference_numeric_ranges = [] ∧
    emptyRefTest.ground_truth = none ∧
    emptyRefTest.anti_hallucination = false ∧
    (evaluate_reference trivialEnv emptyRefTest []).normalized ≠ 1 := by
  refine ⟨rfl, rfl, rfl, rfl, rfl, ?_⟩
  have hblank : pyStrip (_extract_full_response ([] : List Msg)) = "" := rfl
  rw [show (evaluate_reference trivialEnv emptyRefTest []) = { normalized := 0 } by
    simp [evaluate_reference, hblank]]
  norm_num

/-- C7 (amended): if none of the five reference sub-checks applies and the
concatenated assistant text is non-blank, `evaluate_reference` returns exactly
1. -/
theorem reference_vacuous_perfect (env : Env) (test : TestDef)
    (rounds : List Msg)
    (hkw : test.reference_keywords = [])
    (hanti : test.reference_anti_keywords = [])
    (hnum : test.reference_numeric_ranges = [])
    (hgt : groundTruthFalsy test.ground_truth = true)
    (hhal : test.anti_hallucination = false)
    (hblank : pyStrip (_extract_full_response rounds) ≠ "") :
    (evaluate_reference env test rounds).normalized = 1 := by
  simp only [evaluate_reference, if_neg hblank, hkw, hanti, hnum, hgt, hhal,
    if_true, if_false, List.append_nil, List.nil_append]
  norm_num

/-- Witness for C7 (amended): the empty test over one non-blank assistant
response. -/
theorem reference_vacuous_perfect_witness :
    pyStrip (_extract_full_response [{ role := "assistant", content := "hi" }]) ≠ "" ∧
    (evaluate_reference trivialEnv emptyRefTest
      [{ role := "assistant", content := "hi" }]).normalized = 1 :=
  ⟨by decide,
   reference_vacuous_perfect trivialEnv emptyRefTest
     [{ role := "assistant", content := "hi" }] rfl rfl rfl rfl rfl (by decide)⟩

/-! ## statistics.py — mean, std and confidence intervals

`math.sqrt` is irrational-valued and is modelled as an oracle parameter
`sqrtFn`; the claims proved below hold for every oracle. -/

/-- Student-t critical values for the 95% two-tailed interval (`T_TABLE`). -/
def T_TABLE : ℕ → Option ℚ
  | 1 => some 12.706
  | 2 => some 4.303
  | 3 => some 3.182
  | 4 => some 2.776
  | 5 => some 2.571
  | 6 => some 2.447
  | 7 => some 2.365
  | 8 => some 2.306
  | 9 => some 2.262
  | 10 => some 2.228
  | 15 => some 2.131
  | 20 => some 2.086
  | 25 => some 2.060
  | 30 => some 2.042
  | 50 => some 2.009
  | 100 => some 1.984
  | _ => none

/-- The sorted key list of `T_TABLE`. -/
def T_TABLE_KEYS : List ℕ :=
  [1, 2, 3, 4, 5, 6, 7, 8, 9, 10, 15, 20, 25, 30, 50, 100]

/-- Normal-approximation fallback (`Z_95`). -/
def Z_95 : ℚ := 1.96

/-- The linear-interpolation scan over consecutive key pairs inside
`_get_t_critical`. -/
def interpScan (df : ℕ) : List ℕ → Option ℚ
  | k1 :: k2 :: rest =>
    if k1 ≤ df ∧ df < k2 then
      match T_TABLE k1, T_TABLE k2 with
      | some t1, some t2 =>
        some (t1 + (((df : ℚ) - (k1 : ℚ)) / ((k2 : ℚ) - (k1 : ℚ))) * (t2 - t1))
      | _, _ => none
    else interpScan df (k2 :: rest)
  | _ => none

/-- `_get_t_critical`: exact table lookup, then linear interpolation between
neighbouring table keys, then the normal approximation. -/
def _get_t_critical (df : ℕ) : ℚ :=
  match T_TABLE df with
  | some t => t
  | none =>
    match interpScan df T_TABLE_KEYS with
    | some t => t
    | none => Z_95

/-- `mean_and_std`: sample mean and Bessel-corrected sample standard
deviation; for n ≥ 2 both are rounded to 4 decimals, for n < 2 the std is 0
and the mean is returned unrounded. -/
def mean_and_std (sqrtFn : ℚ → ℚ) (values : List ℚ) : ℚ × ℚ :=
  if values = [] then (0, 0)
  else
    let n := values.length
    let mean := values.sum / (n : ℚ)
    if n < 2 then (mean, 0)
    else
      let variance := ((values.map (fun x => (x - mean) ^ 2)).sum) / ((n : ℚ) - 1)
      (roundTo4 mean, roundTo4 (sqrtFn variance))

/-- `confidence_interval_95`: (mean, lower, upper) via Student's t; collapses
to a point when n < 2 or the computed std is 0. -/
def confidence_interval_95 (sqrtFn : ℚ → ℚ) (values : List ℚ) : ℚ × ℚ × ℚ :=
  if values = [] then (0, 0, 0)
  else
    let n := values.length
    let ms := mean_and_std sqrtFn values
    if n < 2 ∨ ms.2 = 0 then (ms.1, ms.1, ms.1)
    else
      let margin := _get_t_critical (n - 1) * (ms.2 / sqrtFn ((n : ℚ)))
      (roundTo4 ms.1, roundTo4 (ms.1 - margin), roundTo4 (ms.1 + margin))

/-- C9: for a single-element sample the 95% confidence interval is exactly
(x, x, x); and whenever the sample has fewer than 2 elements or its computed
sample standard deviation is 0, the interval collapses to a point at the
returned mean. -/
theorem ci95_collapses (sqrtFn : ℚ → ℚ) (x : ℚ) (values : List ℚ)
    (h : values.length < 2 ∨ (mean_and_std sqrtFn values).2 = 0) :
    confidence_interval_95 sqrtFn [x] = (x, x, x) ∧
    confidence_interval_95 sqrtFn values =
      ((mean_and_std sqrtFn values).1, (mean_and_std sqrtFn values).1,
       (mean_and_std sqrtFn values).1) := by
  constructor
  · have hms : mean_and_std sqrtFn [x] = (x, 0) := by
      simp [mean_and_std]
    simp [confidence_interval_95, hms]
  · by_cases hnil : values = []
    · subst hnil
      simp [confidence_interval_95, mean_and_std]
    · simp only [confidence_interval_95, if_neg hnil]
      rw [if_pos h]

/-- Witness for C9 at the singleton sample [7]. -/
theorem ci95_collapses_witness :
    (([(3 : ℚ)].length < 2) ∨ (mean_and_std (fun q => q) [(3 : ℚ)]).2 = 0) ∧
    confidence_interval_95 (fun q => q) [(7 : ℚ)] = (7, 7, 7) :=
  ⟨Or.inl (by norm_num),
   (ci95_collapses (fun q => q) 7 [(3 : ℚ)] (Or.inl (by norm_num))).1⟩

/-! ## __main__.py — orchestrator -/

/-- One evaluation result (the result dict of `run_single_evaluation`);
report-only detail fields (timing, per-check details, audit sub-dict) are not
modelled, no claim concerns them. -/
structure RunResult where
  test_id : String
  model : String
  rounds : List Msg
  error : Bool := false
  structural_score : ℚ := 0
  reference_score : ℚ := 0
  judge_score : ℚ := 0
  judge_raw : ℤ := 0
  judge_reason : String := ""
  judge_provider : String := ""
  tiebreak_used : Bool := false
  final_score : ℚ := 0
deriving Repr, DecidableEq

/-- `run_single_evaluation` after provider execution: the produced `rounds`
are an input (execution is external); checks for assistant errors, otherwise
runs the three evaluation layers and blends `(s + r + 2j) / 4`. -/
def run_single_evaluation (env : Env) (test : TestDef) (provider_id : String)
    (rounds : List Msg) (available_providers : List String)
    (enable_tiebreak : Bool) : RunResult :=
  let has_error := rounds.any (fun m => m.role == "assistant" && pyTruthyErr m.error)
  if has_error then
    { test_id := test.test_id, model := provider_id, rounds := rounds,
      error := true, structural_score := 0, reference_score := 0,
      judge_score := 0, final_score := 0 }
  else
    let structural := evaluate_structural env test.structural_checks rounds
    let reference := evaluate_reference env test rounds
    let jr := (evaluate_judge env.callJudge env.displayName test.name
      test.category test.prompts rounds test.judge_rubric provider_id
      available_providers structural.normalized reference.normalized
      enable_tiebreak).1
    let final := (structural.normalized * 1 + reference.normalized * 1 +
      jr.normalized * 2) / 4
    { test_id := test.test_id, model := provider_id, rounds := rounds,
      structural_score := structural.normalized,
      reference_score := reference.normalized,
      judge_score := jr.normalized, judge_raw := jr.score_raw,
      judge_reason := jr.reason, judge_provider := jr.judge_provider_id,
      tiebreak_used := jr.tiebreak_used, final_score := roundTo4 final }

/-- Insert-or-append into the judge-pair table (the Python
`judge_pairs[pair_key].append(...)` with on-demand key creation, insertion
ordered). -/
def assocAppend (jp : List (String × List (ℤ × ℤ))) (key : String)
    (pr : ℤ × ℤ) : List (String × List (ℤ × ℤ)) :=
  match jp with
  | [] => [(key, [pr])]
  | (k, ps) :: rest =>
    if k = key then (k, ps ++ [pr]) :: rest
    else (k, ps) :: assocAppend rest key pr

/-- One iteration of the judge-pair accumulation in the orchestrator main
loop: when a distinct judge was used, append `(judge_raw, judge_raw)` under
the key `model_vs_judge`. -/
def judge_pairs_step (jp : List (String × List (ℤ × ℤ))) (r : RunResult) :
    List (String × List (ℤ × ℤ)) :=
  if r.judge_provider ≠ "" ∧ r.judge_provider ≠ r.model then
    assocAppend jp (r.model ++ "_vs_" ++ r.judge_provider) (r.judge_raw, r.judge_raw)
  else jp

/-- One (seed, test, provider) combination of the main loop, together with
the rounds the provider produced for it. -/
structure Combo where
  test : TestDef
  provider_id : String
  rounds : List Msg

/-- The body of the orchestrator main loop for one combination: evaluate,
append the result to the run log, accumulate the judge-pair table. -/
def main_loop_step (env : Env) (available : List String)
    (enable_tiebreak : Bool)
    (acc : List RunResult × List (String × List (ℤ × ℤ))) (c : Combo) :
    List RunResult × List (String × List (ℤ × ℤ)) :=
  let r := run_single_evaluation env c.test c.provider_id c.rounds available
    enable_tiebreak
  (acc.1 ++ [r], judge_pairs_step acc.2 r)

/-- The orchestrator main loop over all combinations. -/
def main_loop (env : Env) (available : List String) (enable_tiebreak : Bool)
    (combos : List Combo) :
    List RunResult × List (String × List (ℤ × ℤ)) :=
  combos.foldl (main_loop_step env available enable_tiebreak) ([], [])

lemma assocAppend_pairs_eq (key : String) (x : ℤ) :
    ∀ jp, (∀ cell ∈ jp, ∀ pr ∈ cell.2, pr.1 = pr.2) →
      ∀ cell ∈ assocAppend jp key (x, x), ∀ pr ∈ cell.2, pr.1 = pr.2 := by
  intro jp
  induction jp with
  | nil =>
    intro _ cell hc pr hp
    simp only [assocAppend, List.mem_singleton] at hc
    subst hc
    simp only [List.mem_singleton] at hp
    subst hp
    rfl
  | cons hd tl ih =>
    obtain ⟨k, ps⟩ := hd
    intro hall cell hc pr hp
    by_cases hk : k = key
    · rw [assocAppend, if_pos hk] at hc
      rcases List.mem_cons.mp hc with hcell | hcell
      · subst hcell
        rcases List.mem_append.mp hp with hpr | hpr
        · exact hall (k, ps) (List.mem_cons_self _ _) pr hpr
        · simp only [List.mem_singleton] at hpr
          subst hpr
          rfl
      · exact hall cell (List.mem_cons_of_mem _ hcell) pr hp
    · rw [assocAppend, if_neg hk] at hc
      rcases List.mem_cons.mp hc with hcell | hcell
      · subst hcell
        exact hall (k, ps) (List.mem_cons_self _ _) pr hp
      · exact ih (fun c hcs => hall c (List.mem_cons_of_mem _ hcs)) cell hcell pr hp

lemma judge_pairs_step_pairs_eq (r : RunResult)
    (jp : List (String × List (ℤ × ℤ)))
    (h : ∀ cell ∈ jp, ∀ pr ∈ cell.2, pr.1 = pr.2) :
    ∀ cell ∈ judge_pairs_step jp r, ∀ pr ∈ cell.2, pr.1 = pr.2 := by
  by_cases hc : r.judge_provider ≠ "" ∧ r.judge_provider ≠ r.model
  · rw [judge_pairs_step, if_pos hc]
    exact assocAppend_pairs_eq _ _ jp h
  · rw [judge_pairs_step, if_neg hc]
    exact h

lemma foldl_judge_pairs_eq (results : List RunResult) :
    ∀ jp, (∀ cell ∈ jp, ∀ pr ∈ cell.2, pr.1 = pr.2) →
      ∀ cell ∈ results.foldl judge_pairs_step jp, ∀ pr ∈ cell.2, pr.1 = pr.2 := by
  induction results with
  | nil =>
    intro jp h
    simpa using h
  | cons r rs ih =>
    intro jp h
    rw [List.foldl_cons]
    exact ih _ (judge_pairs_step_pairs_eq r jp h)

lemma main_loop_foldl_pairs_eq (env : Env) (A : List String) (e : Bool)
    (combos : List Combo) :
    ∀ acc : List RunResult × List (String × List (ℤ × ℤ)),
      (∀ cell ∈ acc.2, ∀ pr ∈ cell.2, pr.1 = pr.2) →
      ∀ cell ∈ (combos.foldl (main_loop_step env A e) acc).2,
        ∀ pr ∈ cell.2, pr.1 = pr.2 := by
  induction combos with
  | nil =>
    intro acc h
    simpa using h
  | cons c cs ih =>
    intro acc h
    rw [List.foldl_cons]
    exact ih _ (judge_pairs_step_pairs_eq _ acc.2 h)

lemma main_loop_foldl_length (env : Env) (A : List String) (e : Bool)
    (combos : List Combo) :
    ∀ acc : List RunResult × List (String × List (ℤ × ℤ)),
      ((combos.foldl (main_loop_step env A e) acc).1).length =
        acc.1.length + combos.length := by
  induction combos with
  | nil => intro acc; simp
  | cons c cs ih =>
    intro acc
    rw [List.foldl_cons, ih]
    simp [main_loop_step]
    omega

/-- A concrete result record for the C4 witness. -/
def sampleResult : RunResult :=
  { test_id := "t", model := "gpt", rounds := [], judge_provider := "claude",
    judge_raw := 2 }

/-- C4: every pair stored in any cell of the judge-pair agreement table has
both components equal — the accumulation appends the primary judge raw score
twice — both for an arbitrary result log and for any complete main-loop
run. -/
theorem judge_pairs_degenerate (results : List RunResult) (env : Env)
    (A : List String) (e : Bool) (combos : List Combo) :
    (∀ cell ∈ results.foldl judge_pairs_step [], ∀ pr ∈ cell.2, pr.1 = pr.2) ∧
    (∀ cell ∈ (main_loop env A e combos).2, ∀ pr ∈ cell.2, pr.1 = pr.2) :=
  ⟨foldl_judge_pairs_eq results [] (by simp),
   main_loop_foldl_pairs_eq env A e combos ([], []) (by simp)⟩

/-- Witness for C4 at a one-result log producing the cell
("gpt_vs_claude", [(2, 2)]). -/
theorem judge_pairs_degenerate_witness :
    (("gpt_vs_claude", [((2 : ℤ), (2 : ℤ))]) ∈
      [sampleResult].foldl judge_pairs_step []) ∧
    ((2 : ℤ), (2 : ℤ)).1 = ((2 : ℤ), (2 : ℤ)).2 :=
  ⟨by decide,
   (judge_pairs_degenerate [sampleResult] trivialEnv [] false []).1
     ("gpt_vs_claude", [((2 : ℤ), (2 : ℤ))]) (by decide)
     ((2 : ℤ), (2 : ℤ)) (by decide)⟩

/-- C5: a run whose rounds carry an assistant error yields the error flag and
all four scores 0; the result does not depend on the evaluation environment,
the available providers or the tiebreak flag (no evaluator or judge is
invoked); and the main loop always yields one result per combination. -/
theorem error_run_zeroes (env1 env2 : Env) (test : TestDef) (p : String)
    (rounds : List Msg) (A1 A2 : List String) (e1 e2 : Bool)
    (combos : List Combo)
    (h : ∃ m ∈ rounds, m.role = "assistant" ∧ pyTruthyErr m.error = true) :
    (run_single_evaluation env1 test p rounds A1 e1).error = true ∧
    (run_single_evaluation env1 test p rounds A1 e1).structural_score = 0 ∧
    (run_single_evaluation env1 test p rounds A1 e1).reference_score = 0 ∧
    (run_single_evaluation env1 test p rounds A1 e1).judge_score = 0 ∧
    (run_single_evaluation env1 test p rounds A1 e1).final_score = 0 ∧
    run_single_evaluation env1 test p rounds A1 e1 =
      run_single_evaluation env2 test p rounds A2 e2 ∧
    (main_loop env1 A1 e1 combos).1.length = combos.length := by
  have hhe : rounds.any (fun m => m.role == "assistant" && pyTruthyErr m.error) = true := by
    obtain ⟨m, hm, hrole, herr⟩ := h
    exact List.any_eq_true.mpr ⟨m, hm, by simp [hrole, herr]⟩
  have E : ∀ env A e, run_single_evaluation env test p rounds A e =
      { test_id := test.test_id, model := p, rounds := rounds, error := true,
        structural_score := 0, reference_score := 0, judge_score := 0,
        final_score := 0 } := by
    intro env A e
    simp only [run_single_evaluation, hhe, if_true]
  rw [E env1 A1 e1, E env2 A2 e2]
  refine ⟨rfl, rfl, rfl, rfl, rfl, rfl, ?_⟩
  have := main_loop_foldl_length env1 A1 e1 combos ([], [])
  simpa [main_loop] using this

/-- Witness for C5: one assistant round with an error. -/
theorem error_run_zeroes_witness :
    (∃ m ∈ [{ role := "assistant", content := "", error := some "boom" : Msg }],
      m.role = "assistant" ∧ pyTruthyErr m.error = true) ∧
    (run_single_evaluation trivialEnv emptyRefTest "gpt"
      [{ role := "assistant", content := "", error := some "boom" }]
      ["gpt", "claude"] true).error = true :=
  ⟨⟨_, List.mem_singleton.mpr rfl, rfl, by decide⟩,
   (error_run_zeroes trivialEnv trivialEnv emptyRefTest "gpt"
     [{ role := "assistant", content := "", error := some "boom" }]
     ["gpt", "claude"] ["gpt", "claude"] true true []
     ⟨_, List.mem_singleton.mpr rfl, rfl, by decide⟩).1⟩

end BenchmarkV2
